import Mathlib

set_option maxRecDepth 4000

/-! Shallow embedding of `src/jni/attrib/interactive.c` (the interactive
GATT/ATT command shell of bluez-tools).  The C file's globals are gathered
in the record `St`; collaborator libraries (glib shell parsing, btio,
attrib/gatt encoders and decoders, readline) are represented by an
environment of results (`Env`) and by explicit parameters holding the
decoded response a callback would obtain from the wire decoder.  Every
side effect of a handler is returned explicitly: printed lines in `out`,
protocol/transport invocations in `reqs`. -/

/-- ATT protocol error code, from the BlueZ `att.h` header used by the source. -/
def ATT_ECODE_INVALID_HANDLE : Nat := 0x01

/-- ATT protocol error code, from the BlueZ `att.h` header used by the source. -/
def ATT_ECODE_INVALID_PDU : Nat := 0x04

/-- ATT protocol error code, from the BlueZ `att.h` header used by the source. -/
def ATT_ECODE_INVALID_OFFSET : Nat := 0x07

/-- ATT protocol error code, from the BlueZ `att.h` header used by the source. -/
def ATT_ECODE_ATTR_NOT_FOUND : Nat := 0x0a

/-- ATT protocol error code, from the BlueZ `att.h` header used by the source. -/
def ATT_ECODE_UNLIKELY : Nat := 0x0e

/-- Default minimum LE MTU, from the BlueZ `att.h` header used by the source. -/
def ATT_DEFAULT_LE_MTU : Nat := 23

/-- Value of a character as a digit in the given base (as `strtoll` accepts). -/
def digitVal (base : Nat) (c : Char) : Option Nat :=
  let v :=
    if 48 ≤ c.toNat ∧ c.toNat ≤ 57 then some (c.toNat - 48)
    else if 97 ≤ c.toNat ∧ c.toNat ≤ 122 then some (c.toNat - 87)
    else if 65 ≤ c.toNat ∧ c.toNat ≤ 90 then some (c.toNat - 55)
    else none
  match v with
  | some d => if d < base then some d else none
  | none => none

/-- Consume leading digits of the given base, returning the accumulated value,
the number of digits consumed, and the remaining characters. -/
def takeDigits (base : Nat) : List Char → Nat → Nat × Nat × List Char
  | c :: cs, acc =>
    match digitVal base c with
    | some d =>
      let r := takeDigits base cs (base * acc + d)
      (r.1, r.2.1 + 1, r.2.2)
    | none => (acc, 0, c :: cs)
  | [], acc => (acc, 0, [])

/-- Largest value of a C `long long`. -/
def LLONG_MAX : Int := 9223372036854775807

/-- Smallest value of a C `long long`. -/
def LLONG_MIN : Int := -9223372036854775808

/-- Result of a `strtoll` call: the (clamped) value, how many digits were
consumed, the characters the end pointer points at (the whole input again
when no digits were consumed, as `strtoll` specifies), and whether errno
was set to ERANGE. -/
structure ParseLL where
  val : Int
  ndigits : Nat
  rest : List Char
  erange : Bool
deriving Repr, DecidableEq

/-- Semantics of C `strtoll(s, &e, base)` for the two bases the source uses
(16 and 0): skip whitespace, optional sign, optional `0x` prefix (base 16,
or base 0 resolving to 16), leading-`0` octal for base 0, clamp to the
`long long` range setting ERANGE. -/
def strtollGen (base : Nat) (s : String) : ParseLL :=
  let cs0 := s.data
  let cs1 := cs0.dropWhile fun c =>
    c == ' ' || c == '\t' || c == '\n' || c == '\r' || c == '\x0b' || c == '\x0c'
  let sign : Int × List Char :=
    match cs1 with
    | '-' :: r => (-1, r)
    | '+' :: r => (1, r)
    | r => (1, r)
  let cs2 := sign.2
  let hexPrefixed : Bool :=
    match cs2 with
    | '0' :: x :: r =>
      (x == 'x' || x == 'X') && (match r with | c :: _ => (digitVal 16 c).isSome | [] => false)
    | _ => false
  let res : Nat × Nat × List Char :=
    if base = 16 then
      if hexPrefixed then takeDigits 16 (cs2.drop 2) 0 else takeDigits 16 cs2 0
    else
      if hexPrefixed then takeDigits 16 (cs2.drop 2) 0
      else match cs2 with
        | '0' :: _ :: _ => takeDigits 8 cs2 0
        | _ => takeDigits 10 cs2 0
  let v0 : Int := sign.1 * res.1
  { val := if v0 > LLONG_MAX then LLONG_MAX else if v0 < LLONG_MIN then LLONG_MIN else v0,
    ndigits := res.2.1,
    rest := if res.2.1 = 0 then cs0 else res.2.2,
    erange := v0 > LLONG_MAX || v0 < LLONG_MIN }

/-- C `strtoll(s, &e, 16)`. -/
def strtoll16 (s : String) : ParseLL := strtollGen 16 s

/-- C `strtoll(s, ..., 0)` / `strtol(s, ..., 0)` (identical on LP64). -/
def strtoll0 (s : String) : ParseLL := strtollGen 0 s

/-- Truncation of a wider C integer value to `int` (two's-complement wrap),
as happens in assignments like `int dst = strtoll(...)`. -/
def toCInt (v : Int) : Int := (v + 2 ^ 31) % 2 ^ 32 - 2 ^ 31

/-- Truncation of a C `int` value to `uint16_t`, as happens when an `int`
range bound is passed to a gatt request function taking `uint16_t`. -/
def toU16 (v : Int) : Nat := (v % 65536).toNat

/-- ASCII lowercasing of one character (as C `tolower` in the C locale). -/
def lowerChar (c : Char) : Char :=
  if 65 ≤ c.toNat ∧ c.toNat ≤ 90 then Char.ofNat (c.toNat + 32) else c

/-- ASCII lowercasing of a string. -/
def lowerStr (s : String) : String := ⟨s.data.map lowerChar⟩

/-- ASCII whitespace, as `g_ascii_isspace`. -/
def isSpaceC (c : Char) : Bool :=
  c == ' ' || c == '\t' || c == '\n' || c == '\r' || c == '\x0b' || c == '\x0c'

/-- Collaborator `g_strstrip`: remove leading and trailing whitespace. -/
def g_strstrip (s : String) : String :=
  ⟨((s.data.dropWhile isSpaceC).reverse.dropWhile isSpaceC).reverse⟩

/-- Function `strtohandle` of interactive.c: parse a handle as hexadecimal;
`-EINVAL` (= -22) when errno was set or trailing characters remain. -/
def strtohandle (src : String) : Int :=
  let p := strtoll16 src
  if p.erange ∨ p.rest ≠ [] then -22
  else toCInt p.val

/-- Connection state enum of interactive.c. -/
inductive ConnState where
  | disconnected
  | connecting
  | connected
deriving Repr, DecidableEq

/-- The file-scope mutable globals of interactive.c.  The globals `start`
and `end` (used by descriptor discovery) are named `gStart`/`gEnd` because
`end` is reserved in Lean; `iochannel` and `attrib` record whether those
pointers are non-NULL. -/
structure St where
  conn_state : ConnState := .disconnected
  conn_handle : Nat := 0
  opt_src : Option String := none
  opt_dst : Option String := none
  opt_dst_type : Option String := none
  opt_sec_level : String := "low"
  opt_psm : Int := 0
  opt_mtu : Int := 0
  gStart : Int := 0
  gEnd : Int := 0
  iochannel : Bool := false
  attrib : Bool := false
deriving Repr, DecidableEq

/-- One printed line of the `TAG(handle): code [payload]` text protocol:
tag, the connection-handle field, the numeric result code when the line has
one, free text, and numeric payload (handles / hex bytes). -/
structure OutLine where
  tag : String
  conn : Nat
  code : Option Int
  text : String
  nums : List Nat
deriving Repr, DecidableEq

/-- The per-invocation heap record `struct characteristic_data` of
interactive.c (read-by-UUID pagination cursor).  Field `stop` is the C
field `end` (reserved in Lean). -/
structure CharData where
  orig_start : Nat
  start : Nat
  stop : Nat
  uuid : String
deriving Repr, DecidableEq

/-- An invocation of a collaborator (gatt/btio/gattrib) function that
sends a request or touches the transport. -/
inductive Req where
  | discoverPrimaryAll
  | discoverPrimaryUuid (u : String)
  | discoverChar (s e : Nat) (u : Option String)
  | findInfo (s e : Nat)
  | readChar (handle : Nat) (offset : Int)
  | readCharByUuid (s e : Nat) (u : String)
  | writeCharReq (handle : Nat) (val : List Nat)
  | writeCharCmd (handle : Nat) (val : List Nat)
  | exchangeMtu (mtu : Int)
  | gattConnect (dst : String)
  | btIoSet (level : String)
  | setMtu (mtu : Nat)
  | sendConfirmation
deriving Repr, DecidableEq

/-- Results the collaborator libraries return synchronously to a handler. -/
structure Env where
  parseUuid : String → Bool
  attrData : String → List Nat
  gattConnectOk : Bool
  btIoSetErr : Option (Int × String)
  shellParse : String → Option (List String)

/-- Every effect of one handler invocation: the new global state, the lines
printed, the collaborator invocations made, whether the main loop was told
to quit, and the `characteristic_data` record allocated (read-by-UUID). -/
structure Eff where
  st : St
  out : List OutLine := []
  reqs : List Req := []
  quit : Bool := false
  newCharData : Option CharData := none
deriving Repr, DecidableEq

/-- Collaborator `att_ecode2str`: error-code-to-text lookup; only the codes
relevant to the claims are given their BlueZ text. -/
def att_ecode2str (status : Nat) : String :=
  if status = 0x0a then "Attribute not found"
  else if status = 0x01 then "Invalid handle"
  else "Unexpected error code"

/-- Function `set_state` of interactive.c: store the new state and reset
`conn_handle` to 0 whenever the new state is not Connected. -/
def set_state (st : St) (s : ConnState) : St :=
  let st' := { st with conn_state := s }
  if st'.conn_state ≠ .connected then { st' with conn_handle := 0 } else st'

/-- Function `events_handler` of interactive.c, taking the inbound PDU
already split into opcode, attribute handle and payload bytes. -/
def events_handler (st : St) (opcode : Nat) (handle : Nat) (payload : List Nat) : Eff :=
  if opcode = 0x1b then
    { st := st, out := [⟨"NOTIFICATION", st.conn_handle, none, "", handle :: payload⟩] }
  else if opcode = 0x1d then
    { st := st, out := [⟨"INDICATION", st.conn_handle, none, "", handle :: payload⟩],
      reqs := [.sendConfirmation] }
  else
    { st := st, out := [⟨"ERROR", st.conn_handle, none, "(16,256) Invalid opcode", []⟩] }

/-- Outcome of the asynchronous connect attempt as seen by `connect_cb`:
transport failure, success with the handle `bt_io_get` reports, or success
with `bt_io_get` itself failing. -/
inductive ConnectRes where
  | fail (code : Int) (msg : String)
  | okHandle (h : Nat)
  | okGetErr (code : Int) (msg : String)

/-- Function `connect_cb` of interactive.c. -/
def connect_cb (st : St) (r : ConnectRes) : Eff :=
  match r with
  | .fail c m =>
    let st' := set_state st .disconnected
    { st := st', out := [⟨"CONNECTED", st'.conn_handle, some c, m, []⟩] }
  | .okGetErr c m =>
    let st' := { st with attrib := true }
    { st := { st' with conn_handle := 0 },
      out := [⟨"CONNECTED", st'.conn_handle, some c, m, []⟩] }
  | .okHandle h =>
    let st' := { st with attrib := true, conn_handle := h }
    { st := set_state st' .connected,
      out := [⟨"CONNECTED", h, some 0, st.opt_dst.getD "", []⟩] }

/-- Function `disconnect_io` of interactive.c. -/
def disconnect_io (st : St) : Eff :=
  if st.conn_state = .disconnected then { st := st }
  else
    let st' := { st with attrib := false, opt_mtu := 0, iochannel := false }
    { st := set_state st' .disconnected,
      out := [⟨"DISCONNECTED", st'.conn_handle, none, st'.opt_dst.getD "", []⟩] }

/-- Function `channel_watcher` of interactive.c (G_IO_HUP watch). -/
def channel_watcher (st : St) : Eff :=
  let d := disconnect_io st
  { d with out := ⟨"DISCONNECTED", st.conn_handle, none, st.opt_dst.getD "", []⟩ :: d.out }

/-- Callback `primary_all_cb` of interactive.c; a service is
(range start, range end, uuid). -/
def primary_all_cb (st : St) (services : List (Nat × Nat × String)) (status : Nat) : Eff :=
  if status ≠ 0 then
    { st := st, out := [⟨"PRIMARY-ALL-END", st.conn_handle, some (status : Int),
                         att_ecode2str status, []⟩] }
  else
    { st := st,
      out := (services.map fun s =>
                (⟨"PRIMARY-ALL", st.conn_handle, none, s.2.2, [s.1, s.2.1]⟩ : OutLine)) ++
             [⟨"PRIMARY-ALL-END", st.conn_handle, some 0, "", []⟩] }

/-- Callback `primary_by_uuid_cb` of interactive.c; a range is (start, end). -/
def primary_by_uuid_cb (st : St) (ranges : List (Nat × Nat)) (status : Nat) : Eff :=
  if status ≠ 0 then
    { st := st, out := [⟨"PRIMARY-UUID-END", st.conn_handle, some (status : Int),
                         att_ecode2str status, []⟩] }
  else
    { st := st,
      out := (ranges.map fun r =>
                (⟨"PRIMARY-UUID", st.conn_handle, none, "", [r.1, r.2]⟩ : OutLine)) ++
             [⟨"PRIMARY-UUID-END", st.conn_handle, some 0, "", []⟩] }

/-- Callback `char_cb` of interactive.c; a characteristic is
(handle, properties, value handle, uuid). -/
def char_cb (st : St) (characteristics : List (Nat × Nat × Nat × String)) (status : Nat) : Eff :=
  if status ≠ 0 then
    { st := st, out := [⟨"CHAR-END", st.conn_handle, some (status : Int),
                         att_ecode2str status, []⟩] }
  else
    { st := st,
      out := (characteristics.map fun c =>
                (⟨"CHAR", st.conn_handle, none, c.2.2.2, [c.1, c.2.1, c.2.2.1]⟩ : OutLine)) ++
             [⟨"CHAR-END", st.conn_handle, some 0, "", []⟩] }

/-- Callback `char_desc_cb` of interactive.c.  `resp` is the decoded
find-information response (`dec_find_info_resp`): `none` when decoding
returned NULL, otherwise the list of (handle, uuid string) entries.  The
local `handle` starts at 0xffff and is overwritten by every entry; after
the unconditional `CHAR-DESC-END: 0` line, a further `gatt_find_info`
request for `[handle+1, end]` (global `end`) is issued when
`handle != 0xffff && handle < end`. -/
def char_desc_cb (st : St) (status : Nat) (resp : Option (List (Nat × String))) : Eff :=
  if status ≠ 0 then
    { st := st, out := [⟨"CHAR-DESC-END", st.conn_handle, some (status : Int),
                         att_ecode2str status, []⟩] }
  else
    let entries := resp.getD []
    let lines := entries.map fun e =>
      (⟨"CHAR-DESC", st.conn_handle, none, e.2, [e.1]⟩ : OutLine)
    let handle := (entries.map Prod.fst).foldl (fun _ h => h) 0xffff
    let out := lines ++ [⟨"CHAR-DESC-END", st.conn_handle, some 0, "", []⟩]
    if handle ≠ 0xffff ∧ (handle : Int) < st.gEnd then
      { st := st, out := out, reqs := [.findInfo (handle + 1) (toU16 st.gEnd)] }
    else
      { st := st, out := out }

/-- Callback `char_read_cb` of interactive.c.  `resp` is the decoded read
response value (`none` when `dec_read_resp` failed). -/
def char_read_cb (st : St) (status : Nat) (resp : Option (List Nat)) : Eff :=
  if status ≠ 0 then
    { st := st, out := [⟨"CHAR-VAL-DESC", st.conn_handle, some (status : Int),
                         att_ecode2str status, []⟩] }
  else
    match resp with
    | none =>
      { st := st, out := [⟨"CHAR-VAL-DESC", st.conn_handle, some (ATT_ECODE_INVALID_PDU : Int),
                           att_ecode2str ATT_ECODE_INVALID_PDU, []⟩] }
    | some v =>
      { st := st, out := [⟨"CHAR-VAL-DESC", st.conn_handle, some 0, "", v⟩] }

/-- Result of one `char_read_by_uuid_cb` invocation: its printed/requested
effects, the final contents of the `characteristic_data` record, and
whether the record was freed. -/
structure UuidCbRes where
  eff : Eff
  char_data : CharData
  freed : Bool
deriving Repr, DecidableEq

/-- Callback `char_read_by_uuid_cb` of interactive.c.  `resp` is the
decoded read-by-type response (`dec_read_by_type_resp`): `none` for NULL,
otherwise the (handle, value bytes) entries.  Note the source frees
`char_data` on every path and issues no follow-up request: the cursor
`char_data->start` is advanced past each returned handle but never used
again. -/
def char_read_by_uuid_cb (st : St) (cd : CharData) (status : Nat)
    (resp : Option (List (Nat × List Nat))) : UuidCbRes :=
  if status = ATT_ECODE_ATTR_NOT_FOUND ∧ cd.start ≠ cd.orig_start then
    { eff := { st := st }, char_data := cd, freed := true }
  else if status ≠ 0 then
    { eff := { st := st, out := [⟨"CHAR-READ-UUID-END", st.conn_handle, some (status : Int),
                                  att_ecode2str status, []⟩] },
      char_data := cd, freed := true }
  else
    match resp with
    | none => { eff := { st := st }, char_data := cd, freed := true }
    | some l =>
      let cd' := if l = [] then cd
                 else { cd with start := ((l.map Prod.fst).foldl (fun _ h => h) cd.start + 1) % 65536 }
      let lines := l.map fun e =>
        (⟨"CHAR-READ-UUID", st.conn_handle, none, "", e.1 :: e.2⟩ : OutLine)
      { eff := { st := st,
                 out := lines ++ [⟨"CHAR-READ-UUID-END", st.conn_handle, some 0, "", []⟩] },
        char_data := cd', freed := true }

/-- Callback `char_write_req_cb` of interactive.c.  `wOk`/`eOk` are the
results of `dec_write_resp` and `dec_exec_write_resp` on the response. -/
def char_write_req_cb (st : St) (status : Nat) (wOk eOk : Bool) : Eff :=
  if status ≠ 0 then
    { st := st, out := [⟨"CHAR-WRITE-REQ", st.conn_handle, some (status : Int),
                         att_ecode2str status, []⟩] }
  else if ¬ wOk ∧ ¬ eOk then
    { st := st, out := [⟨"CHAR-WRITE-REQ", st.conn_handle, some 1, "", []⟩] }
  else
    { st := st, out := [⟨"CHAR-WRITE-REQ", st.conn_handle, some 0, "", []⟩] }

/-- Callback `exchange_mtu_cb` of interactive.c.  `resp` is the peer MTU
decoded by `dec_mtu_resp` (`none` on decode failure); `setOk` is the result
of `g_attrib_set_mtu`, the application of the negotiated value to the live
connection, recorded as a `setMtu` invocation. -/
def exchange_mtu_cb (st : St) (status : Nat) (resp : Option Nat) (setOk : Bool) : Eff :=
  if status ≠ 0 then
    { st := st, out := [⟨"MTU", st.conn_handle, some (status : Int), att_ecode2str status, []⟩] }
  else
    match resp with
    | none =>
      { st := st, out := [⟨"MTU", st.conn_handle, some (ATT_ECODE_INVALID_PDU : Int),
                           "Protocol error", []⟩] }
    | some peer =>
      let m := toU16 (min (peer : Int) st.opt_mtu)
      if setOk then
        { st := st, out := [⟨"MTU", st.conn_handle, some 0, "", []⟩], reqs := [.setMtu m] }
      else
        { st := st, out := [⟨"MTU", st.conn_handle, some 129, "Error exchanging MTU", []⟩],
          reqs := [.setMtu m] }

/-- C `argvp[i]` (only read by handlers under an `argcp` guard). -/
def arg (argv : List String) (i : Nat) : String := argv.getD i ""

/-- Command handler `cmd_connect` of interactive.c.  Note the bare `return`
when the state is not Disconnected: nothing is printed and nothing issued. -/
def cmd_connect (st : St) (argv : List String) (env : Env) : Eff :=
  if st.conn_state ≠ .disconnected then { st := st }
  else
    let st :=
      if argv.length > 1 then
        { st with opt_dst := some (arg argv 1),
                  opt_dst_type := some (if argv.length > 2 then arg argv 2 else "public") }
      else st
    match st.opt_dst with
    | none =>
      { st := st, out := [⟨"CONNECT", 0, some 1,
                           "00:00:00:00:00:00 Remote Bluetooth address required", []⟩] }
    | some dst =>
      let st := set_state st .connecting
      if env.gattConnectOk then
        { st := { st with iochannel := true }, reqs := [.gattConnect dst] }
      else
        { st := set_state st .disconnected, reqs := [.gattConnect dst] }

/-- Command handler `cmd_disconnect` of interactive.c. -/
def cmd_disconnect (st : St) (argv : List String) (env : Env) : Eff :=
  disconnect_io st

/-- Command handler `cmd_primary` of interactive.c. -/
def cmd_primary (st : St) (argv : List String) (env : Env) : Eff :=
  if st.conn_state ≠ .connected then
    if argv.length ≠ 0 then
      { st := st, out := [⟨"PRIMARY-ALL", 0, some 256, "Command failed: disconnected", []⟩] }
    else
      { st := st, out := [⟨"PRIMARY-UUID", 0, some 256, "Command failed: disconnected", []⟩] }
  else if argv.length = 1 then
    { st := st, reqs := [.discoverPrimaryAll] }
  else if ¬ env.parseUuid (arg argv 1) then
    { st := st, out := [⟨"PRIMARY-UUID", st.conn_handle, some 1, "Invalid UUID", []⟩] }
  else
    { st := st, reqs := [.discoverPrimaryUuid (arg argv 1)] }

/-- Command handler `cmd_char` of interactive.c (characteristics
discovery).  Its `start`/`end` are locals; each bound is only checked to
have parsed (`< 0` rejected), with no `end >= start` comparison. -/
def cmd_char (st : St) (argv : List String) (env : Env) : Eff :=
  if st.conn_state ≠ .connected then
    { st := st, out := [⟨"CHAR-DESC-END", 0, some 256, "disconnected", []⟩] }
  else
    let s : Int := if argv.length > 1 then strtohandle (arg argv 1) else 0x0001
    if s < 0 then
      { st := st, out := [⟨"CHAR-DESC-END", st.conn_handle, some (ATT_ECODE_INVALID_HANDLE : Int),
                           "Invalid start handle: " ++ arg argv 1, []⟩] }
    else
      let e : Int := if argv.length > 2 then strtohandle (arg argv 2) else 0xffff
      if e < 0 then
        { st := st, out := [⟨"CHAR-DESC-END", st.conn_handle, some (ATT_ECODE_INVALID_HANDLE : Int),
                             "Invalid end handle: " ++ arg argv 2, []⟩] }
      else if argv.length > 3 then
        if ¬ env.parseUuid (arg argv 3) then
          { st := st, out := [⟨"CHAR-DESC-END", st.conn_handle, some (ATT_ECODE_UNLIKELY : Int),
                               "Invalid UUID", []⟩] }
        else
          { st := st, reqs := [.discoverChar (toU16 s) (toU16 e) (some (arg argv 3))] }
      else
        { st := st, reqs := [.discoverChar (toU16 s) (toU16 e) none] }

/-- Command handler `cmd_char_desc` of interactive.c (descriptor
discovery).  It assigns the file-scope globals `start`/`end` and checks
`end < start` only when an explicit end argument was given. -/
def cmd_char_desc (st : St) (argv : List String) (env : Env) : Eff :=
  if st.conn_state ≠ .connected then
    { st := st, out := [⟨"CHAR-DESC-END", 0, some 256, "Command failed: disconnected", []⟩] }
  else
    let st := { st with gStart := if argv.length > 1 then strtohandle (arg argv 1) else 1 }
    if st.gStart < 0 then
      { st := st, out := [⟨"CHAR-DESC-END", st.conn_handle, some (ATT_ECODE_INVALID_HANDLE : Int),
                           "Invalid start handle: " ++ arg argv 1, []⟩] }
    else if argv.length > 2 then
      let st := { st with gEnd := strtohandle (arg argv 2) }
      if st.gEnd < st.gStart then
        { st := st, out := [⟨"CHAR-DESC-END", st.conn_handle, some (ATT_ECODE_INVALID_HANDLE : Int),
                             "Invalid end handle: " ++ arg argv 2, []⟩] }
      else
        { st := st, reqs := [.findInfo (toU16 st.gStart) (toU16 st.gEnd)] }
    else
      let st := { st with gEnd := 0xffff }
      { st := st, reqs := [.findInfo (toU16 st.gStart) (toU16 st.gEnd)] }

/-- Command handler `cmd_read_hnd` of interactive.c. -/
def cmd_read_hnd (st : St) (argv : List String) (env : Env) : Eff :=
  if st.conn_state ≠ .connected then
    { st := st, out := [⟨"CHAR-READ-HND", 0, some 256, "Command failed: disconnected", []⟩] }
  else if argv.length < 2 then
    { st := st, out := [⟨"CHAR-READ-HND", st.conn_handle, some 1, "Missing argument: handle", []⟩] }
  else
    let handle := strtohandle (arg argv 1)
    if handle < 0 then
      { st := st, out := [⟨"CHAR-READ-HND", st.conn_handle, some 1,
                           "Invalid handle: " ++ arg argv 1, []⟩] }
    else if argv.length > 2 then
      let p := strtoll0 (arg argv 2)
      if p.erange ∨ p.rest ≠ [] then
        { st := st, out := [⟨"CHAR-READ-HND", st.conn_handle, some (ATT_ECODE_INVALID_OFFSET : Int),
                             "Invalid offset: " ++ arg argv 2, []⟩] }
      else
        { st := st, reqs := [.readChar (toU16 handle) (toCInt p.val)] }
    else
      { st := st, reqs := [.readChar (toU16 handle) 0] }

/-- Command handler `cmd_read_uuid` of interactive.c.  The created
`characteristic_data` record is reported in `newCharData`.  (The invalid
start/end messages echo `argvp[1]`/`argvp[2]` exactly as the source does.) -/
def cmd_read_uuid (st : St) (argv : List String) (env : Env) : Eff :=
  if st.conn_state ≠ .connected then
    { st := st, out := [⟨"CHAR-READ-UUID", 0, some 256, "Command failed: disconnected", []⟩] }
  else if argv.length < 2 then
    { st := st, out := [⟨"CHAR-READ-UUID", st.conn_handle, some 1, "Missing argument: UUID", []⟩] }
  else if ¬ env.parseUuid (arg argv 1) then
    { st := st, out := [⟨"CHAR-READ-UUID", st.conn_handle, some 1, "Invalid UUID", []⟩] }
  else
    let finish : Int → Int → Eff := fun s e =>
      { st := st, reqs := [.readCharByUuid (toU16 s) (toU16 e) (arg argv 1)],
        newCharData := some ⟨toU16 s, toU16 s, toU16 e, arg argv 1⟩ }
    let s : Int := if argv.length > 2 then strtohandle (arg argv 2) else 0x0001
    if s < 0 then
      { st := st, out := [⟨"CHAR-READ-UUID", st.conn_handle, some (ATT_ECODE_INVALID_HANDLE : Int),
                           "Invalid start handle: " ++ arg argv 1, []⟩] }
    else if argv.length > 3 then
      let e := strtohandle (arg argv 3)
      if e < s then
        { st := st, out := [⟨"CHAR-READ-UUID", st.conn_handle, some (ATT_ECODE_INVALID_HANDLE : Int),
                             "Invalid end handle: " ++ arg argv 2, []⟩] }
      else finish s e
    else finish s 0xffff

/-- Command handler `cmd_char_write` of interactive.c, serving both
`char-write-req` and `char-write-cmd`; the variant is chosen by comparing
`argvp[0]` against "char-write-req". -/
def cmd_char_write (st : St) (argv : List String) (env : Env) : Eff :=
  if argv.length < 3 then
    { st := st, out := [⟨"CHAR-WRITE-", st.conn_handle, some 257,
                         "Usage: " ++ arg argv 0 ++ " <handle> <new value>", []⟩] }
  else
    let isReq := arg argv 0 = "char-write-req"
    if st.conn_state ≠ .connected then
      { st := st, out := [⟨if isReq then "CHAR-WRITE-REQ" else "CHAR-WRITE-CMD", 0, some 256,
                           "Command failed: disconnected", []⟩] }
    else
      let handle := strtohandle (arg argv 1)
      if handle ≤ 0 then
        { st := st, out := [⟨if isReq then "CHAR-WRITE-REQ" else "CHAR-WRITE-CMD",
                             st.conn_handle, some (ATT_ECODE_INVALID_HANDLE : Int),
                             "A valid handle is required", []⟩] }
      else
        let value := env.attrData (arg argv 2)
        if value.length = 0 then
          { st := st, out := [⟨if isReq then "CHAR-WRITE-REQ" else "CHAR-WRITE-CMD",
                               st.conn_handle, some (ATT_ECODE_INVALID_HANDLE : Int),
                               "invalid value", []⟩] }
        else if arg argv 0 = "char-write-req" then
          { st := st, reqs := [.writeCharReq (toU16 handle) value] }
        else
          { st := st, reqs := [.writeCharCmd (toU16 handle) value],
            out := [⟨"CHAR-WRITE-CMD", st.conn_handle, some 0, "", []⟩] }

/-- Command handler `cmd_sec_level` of interactive.c.  The new level is
stored into `opt_sec_level` before any state check; the BR/EDR
"must be disconnected" branch prints but does not return; `bt_io_set` is
attempted whenever `iochannel` is non-NULL. -/
def cmd_sec_level (st : St) (argv : List String) (env : Env) : Eff :=
  if argv.length < 2 then
    { st := st, out := [⟨"SEC-LEVEL", st.conn_handle, some 0, st.opt_sec_level, []⟩] }
  else
    let a := arg argv 1
    let lv := lowerStr a
    if lv ≠ "medium" ∧ lv ≠ "high" ∧ lv ≠ "low" then
      { st := st, out := [⟨"SEC-LEVEL", st.conn_handle, some 257,
                           "Allowed values: low | medium | high", []⟩] }
    else
      let st := { st with opt_sec_level := a }
      if st.opt_psm = 0 ∧ st.conn_state ≠ .connected then
        { st := st, out := [⟨"SEC-LEVEL", 0, some 256,
                             "It can only be done when connected for LE connections", []⟩] }
      else
        let pre : List OutLine :=
          if st.opt_psm ≠ 0 ∧ st.conn_state ≠ .disconnected then
            [⟨"SEC-LEVEL", st.conn_handle, some 256,
              "It must be disconnected to this change take effect", []⟩]
          else []
        if st.iochannel then
          match env.btIoSetErr with
          | some ce =>
            { st := st, out := pre ++ [⟨"SEC-LEVEL", st.conn_handle, some ce.1, ce.2, []⟩],
              reqs := [.btIoSet lv] }
          | none =>
            { st := st, out := pre ++ [⟨"SEC-LEVEL", st.conn_handle, some 0, st.opt_sec_level, []⟩],
              reqs := [.btIoSet lv] }
        else
          { st := st, out := pre ++ [⟨"SEC-LEVEL", st.conn_handle, some 0, st.opt_sec_level, []⟩] }

/-- Command handler `cmd_mtu` of interactive.c.  Note the parsed value is
assigned to the global `opt_mtu` before it is validated. -/
def cmd_mtu (st : St) (argv : List String) (env : Env) : Eff :=
  if st.conn_state ≠ .connected then
    { st := st, out := [⟨"MTU", 0, some 256, "Command failed: not connected.", []⟩] }
  else if st.opt_psm ≠ 0 then
    { st := st, out := [⟨"MTU", st.conn_handle, some 256,
                         "Command failed: operation is only available for LE transport.", []⟩] }
  else if argv.length < 2 then
    { st := st, out := [⟨"MTU", st.conn_handle, some 257, "Usage: mtu <value>", []⟩] }
  else if st.opt_mtu ≠ 0 then
    { st := st, out := [⟨"MTU", st.conn_handle, some (ATT_ECODE_UNLIKELY : Int),
                         "Command failed: MTU exchange can only occur once per connection.", []⟩] }
  else
    let p := strtoll0 (arg argv 1)
    let st := { st with opt_mtu := toCInt p.val }
    if p.erange ∨ st.opt_mtu < (ATT_DEFAULT_LE_MTU : Int) then
      { st := st, out := [⟨"MTU", st.conn_handle, some (ATT_ECODE_UNLIKELY : Int),
                           "Invalid value. Minimum MTU size is 23", []⟩] }
    else
      { st := st, reqs := [.exchangeMtu st.opt_mtu] }

/-- Command handler `cmd_psm` of interactive.c. -/
def cmd_psm (st : St) (argv : List String) (env : Env) : Eff :=
  if st.conn_state = .connected then
    { st := st, out := [⟨"PSM", st.conn_handle, some 256, "Command failed: connected.", []⟩] }
  else if argv.length < 2 then
    { st := st, out := [⟨"PSM", 0, some 257, "Usage: psm <value>", []⟩] }
  else
    let p := strtoll0 (arg argv 1)
    let st := { st with opt_psm := toCInt p.val }
    { st := st, out := [⟨"PSM", 0, some st.opt_psm, "", []⟩] }

/-- Identifier of a handler function in the command table (two table rows,
exit and quit, share one handler, as do char-write-req and
char-write-cmd). -/
inductive CmdId where
  | help
  | quit
  | connect
  | disconnect
  | primary
  | characteristics
  | charDesc
  | readHnd
  | readUuid
  | charWrite
  | secLevel
  | mtu
  | psm
deriving Repr, DecidableEq

/-- The static command registry of interactive.c: name, handler, usage,
description. -/
def commands : List (String × CmdId × String × String) :=
  [("help", .help, "", "Show this help"),
   ("exit", .quit, "", "Exit interactive mode"),
   ("quit", .quit, "", "Exit interactive mode"),
   ("connect", .connect, "[address [address type]]", "Connect to a remote device"),
   ("disconnect", .disconnect, "", "Disconnect from a remote device"),
   ("primary", .primary, "[UUID]", "Primary Service Discovery"),
   ("characteristics", .characteristics, "[start hnd [end hnd [UUID]]]",
    "Characteristics Discovery"),
   ("char-desc", .charDesc, "[start hnd] [end hnd]", "Characteristics Descriptor Discovery"),
   ("char-read-hnd", .readHnd, "<handle> [offset]",
    "Characteristics Value/Descriptor Read by handle"),
   ("char-read-uuid", .readUuid, "<UUID> [start hnd] [end hnd]",
    "Characteristics Value/Descriptor Read by UUID"),
   ("char-write-req", .charWrite, "<handle> <new value>",
    "Characteristic Value Write (Write Request)"),
   ("char-write-cmd", .charWrite, "<handle> <new value>",
    "Characteristic Value Write (No response)"),
   ("sec-level", .secLevel, "[low | medium | high]", "Set security level. Default: low"),
   ("mtu", .mtu, "<value>", "Exchange MTU for GATT/ATT"),
   ("psm", .psm, "<value>", "Set PSM for GATT/ATT over BR")]

/-- Command handler `cmd_help` of interactive.c. -/
def cmd_help (st : St) (argv : List String) (env : Env) : Eff :=
  { st := st, out := commands.map fun c => (⟨"HELP", 0, none, c.1, []⟩ : OutLine) }

/-- Command handler `cmd_exit` of interactive.c. -/
def cmd_exit (st : St) (argv : List String) (env : Env) : Eff :=
  { st := st, quit := true }

/-- Dispatch a `CmdId` to its handler. -/
def runCmd : CmdId → St → List String → Env → Eff
  | .help, st, argv, env => cmd_help st argv env
  | .quit, st, argv, env => cmd_exit st argv env
  | .connect, st, argv, env => cmd_connect st argv env
  | .disconnect, st, argv, env => cmd_disconnect st argv env
  | .primary, st, argv, env => cmd_primary st argv env
  | .characteristics, st, argv, env => cmd_char st argv env
  | .charDesc, st, argv, env => cmd_char_desc st argv env
  | .readHnd, st, argv, env => cmd_read_hnd st argv env
  | .readUuid, st, argv, env => cmd_read_uuid st argv env
  | .charWrite, st, argv, env => cmd_char_write st argv env
  | .secLevel, st, argv, env => cmd_sec_level st argv env
  | .mtu, st, argv, env => cmd_mtu st argv env
  | .psm, st, argv, env => cmd_psm st argv env

/-- Case-insensitive name comparison (C `strcasecmp`, ASCII). -/
def strCaseEq (a b : String) : Bool := lowerStr a == lowerStr b

/-- Case-insensitive lookup of a command name in the registry. -/
def lookupCmd (name : String) : Option CmdId :=
  (commands.find? fun c => strCaseEq c.1 name).map fun c => c.2.1

/-- The lookup-and-invoke loop of `parse_line`. -/
def dispatch (st : St) (argv : List String) (env : Env) : Eff :=
  match lookupCmd (arg argv 0) with
  | some id => runCmd id st argv env
  | none =>
    { st := st, out := [⟨"ERROR", 0, none, "(15,256) " ++ arg argv 0 ++ ": command not found", []⟩] }

/-- Function `parse_line` of interactive.c.  `line = none` is the EOF/NULL
line (implicit exit).  The tokenizer is the collaborator
`g_shell_parse_argv` (`env.shellParse`), which fails on unbalanced quotes;
the source IGNORES its boolean result and reads the `argvp` local that the
failed call never set, so a tokenization failure runs into undefined
behavior, modelled as `none` (no parse-error line, no continuation). -/
def parse_line (st : St) (line : Option String) (env : Env) : Option Eff :=
  match line with
  | none => some { st := st, quit := true }
  | some l =>
    if g_strstrip l = "" then some { st := st }
    else
      match env.shellParse (g_strstrip l) with
      | none => none
      | some argv => some (dispatch st argv env)

/-- One event the single-threaded loop can process: an input line, the
connect completion, a transport hang-up, a notification/indication, or a
decoded response routed to the one-shot callback registered for it. -/
inductive Ev where
  | line (l : Option String) (env : Env)
  | connectDone (r : ConnectRes)
  | hup
  | notifyInd (opcode handle : Nat) (payload : List Nat)
  | findInfoResp (status : Nat) (resp : Option (List (Nat × String)))
  | readResp (status : Nat) (resp : Option (List Nat))
  | readByUuidResp (cd : CharData) (status : Nat) (resp : Option (List (Nat × List Nat)))
  | writeResp (status : Nat) (wOk eOk : Bool)
  | mtuResp (status : Nat) (resp : Option Nat) (setOk : Bool)
  | primaryAllResp (services : List (Nat × Nat × String)) (status : Nat)
  | primaryUuidResp (ranges : List (Nat × Nat)) (status : Nat)
  | charResp (characteristics : List (Nat × Nat × Nat × String)) (status : Nat)

/-- One step of the event loop.  `connect_cb` only fires for the pending
connect attempt (state Connecting): per spec §5, outstanding completion
closures never fire after teardown.  `none` is the undefined-behavior case
of `parse_line`. -/
def stepEv (st : St) : Ev → Option Eff
  | .line l env => parse_line st l env
  | .connectDone r => if st.conn_state = .connecting then some (connect_cb st r) else none
  | .hup => some (channel_watcher st)
  | .notifyInd op h p => some (events_handler st op h p)
  | .findInfoResp s r => some (char_desc_cb st s r)
  | .readResp s r => some (char_read_cb st s r)
  | .readByUuidResp cd s r => some (char_read_by_uuid_cb st cd s r).eff
  | .writeResp s w e => some (char_write_req_cb st s w e)
  | .mtuResp s r ok => some (exchange_mtu_cb st s r ok)
  | .primaryAllResp v s => some (primary_all_cb st v s)
  | .primaryUuidResp v s => some (primary_by_uuid_cb st v s)
  | .charResp v s => some (char_cb st v s)

/-- Initial globals as set up by `interactive()`. -/
def St.start0 (src dst dst_type : Option String) (psm : Int) : St :=
  { conn_state := .disconnected, conn_handle := 0, opt_src := src, opt_dst := dst,
    opt_dst_type := dst_type, opt_sec_level := "low", opt_psm := psm, opt_mtu := 0,
    gStart := 0, gEnd := 0, iochannel := false, attrib := false }

/-- Environment events are well formed when the transport hands out a
nonzero connection handle on a successful connect (spec §3: the handle is
an identifier assigned by the transport on successful connect, zero when
not connected). -/
def EvWF : Ev → Prop
  | .connectDone (.okHandle h) => h ≠ 0
  | _ => True

/-- States reachable by the event loop from some initial configuration
through well-formed events. -/
inductive Reach : St → Prop where
  | start0 (src dst dst_type : Option String) (psm : Int) :
      Reach (St.start0 src dst dst_type psm)
  | next (st : St) (ev : Ev) (e : Eff) (hr : Reach st) (hwf : EvWF ev)
      (hs : stepEv st ev = some e) : Reach e.st

/-- The claimed connection invariant. -/
def ConnInv (st : St) : Prop := st.conn_handle ≠ 0 ↔ st.conn_state = ConnState.connected

/-- A concrete environment used for witnesses: every UUID parses, values
decode to one byte, connects succeed, `bt_io_set` succeeds, and the shell
tokenizer splits on single spaces. -/
def env0 : Env :=
  { parseUuid := fun _ => true,
    attrData := fun _ => [1],
    gattConnectOk := true,
    btIoSetErr := none,
    shellParse := fun s => some [s] }

/-- A connected state used by concrete scenarios. -/
def stC : St :=
  { conn_state := .connected, conn_handle := 0x40, opt_src := none, opt_dst := some "AA",
    opt_dst_type := some "public", opt_sec_level := "low", opt_psm := 0, opt_mtu := 0,
    gStart := 0, gEnd := 0, iochannel := true, attrib := true }

/-- A state stuck in Connecting, for the wrong-state counterexamples. -/
def stConnecting : St :=
  { St.start0 none (some "AA") none 0 with conn_state := .connecting }

/-- Scenario C2, step 1: `char-desc` with default range issues the first
find-information request and sets the globals. -/
def effD1 : Eff := cmd_char_desc stC ["char-desc"] env0

/-- Scenario C2, step 2: first response page carries handles 1..5. -/
def effD2 : Eff :=
  char_desc_cb effD1.st 0 (some [(1, "u1"), (2, "u2"), (3, "u3"), (4, "u4"), (5, "u5")])

/-- Scenario C2, step 3: the follow-up request for [6, 0xffff] answers
attribute-not-found. -/
def effD3 : Eff := char_desc_cb effD2.st ATT_ECODE_ATTR_NOT_FOUND none

/-- Scenario C1: the `characteristic_data` record `cmd_read_uuid` builds
for `char-read-uuid <uuid>` (range [1, 0xffff]). -/
def cdC1 : CharData := ⟨1, 1, 0xffff, "0x2800"⟩

/-- Scenario C1, step 1: the command issues the first read-by-type
request. -/
def effU1 : Eff := cmd_read_uuid stC ["char-read-uuid", "0x2800"] env0

/-- Scenario C1, step 2: the first response page has one match at handle
0x10. -/
def rU2 : UuidCbRes := char_read_by_uuid_cb stC cdC1 0 (some [(0x10, [0xaa, 0xbb])])

/-- Initial state for the reachability witness. -/
def st0w : St := St.start0 none (some "AA") none 0

/-- Effect of dispatching the line "connect" in `st0w`. -/
def e1w : Eff := cmd_connect st0w ["connect"] env0

/-- Effect of the connect completion with transport handle 0x40. -/
def e2w : Eff := connect_cb e1w.st (ConnectRes.okHandle 0x40)

/-- A BR/EDR-configured connected state (PSM 5) for the sec-level scenario. -/
def stBR : St := { stC with opt_psm := 5 }

/-- C1: on a successful first read-by-UUID page (one match at handle 0x10
for range [1, 0xffff]) the callback advances the cursor to 0x11 but frees
the range record and issues NO follow-up request for [0x11, 0xffff]; the
attribute-not-found cursor check is present (error line when the cursor
still equals the original start, silence once it has advanced) but, with
no second request ever issued, it can never fire in the advanced case. -/
theorem read_by_uuid_cb_issues_no_followup :
    effU1.reqs = [Req.readCharByUuid 1 0xffff "0x2800"] ∧
    effU1.newCharData = some cdC1 ∧
    rU2.char_data.start = 0x11 ∧
    rU2.freed = true ∧
    rU2.eff.reqs = [] ∧
    (char_read_by_uuid_cb stC cdC1 ATT_ECODE_ATTR_NOT_FOUND none).eff.out =
      [⟨"CHAR-READ-UUID-END", 0x40, some 10, "Attribute not found", []⟩] ∧
    (char_read_by_uuid_cb stC ⟨1, 0x11, 0xffff, "0x2800"⟩ ATT_ECODE_ATTR_NOT_FOUND none).eff.out
      = [] ∧
    (char_read_by_uuid_cb stC ⟨1, 0x11, 0xffff, "0x2800"⟩ ATT_ECODE_ATTR_NOT_FOUND none).eff.reqs
      = [] := by
  decide

/-- C2 counterexample: in the claimed scenario (handles 1..5, then
attribute-not-found for [6, 0xffff]) the listing is closed by TWO
CHAR-DESC-END lines, one with code 0 after the first page and one carrying
the not-found code 10, so it is not closed by exactly one END line with
code 0; and attribute-not-found on the very first request produces an END
line with the error code 10, not a successful empty-result END 0. -/
theorem char_desc_end_line_counterexample :
    ((effD2.out ++ effD3.out).filter fun o => o.tag == "CHAR-DESC-END").map OutLine.code
      = [some 0, some 10] ∧
    (char_desc_cb effD1.st ATT_ECODE_ATTR_NOT_FOUND none).out
      = [⟨"CHAR-DESC-END", 0x40, some 10, "Attribute not found", []⟩] := by
  decide

/-- C3 counterexample: `sec-level high` in LE mode (no PSM) while
Disconnected prints the rejection line, yet the stored configuration has
already been changed from "low" to "high". -/
theorem sec_level_store_before_check :
    (cmd_sec_level (St.start0 none (some "AA") none 0) ["sec-level", "high"] env0).st.opt_sec_level
      = "high" ∧
    (St.start0 none (some "AA") none 0).opt_sec_level = "low" ∧
    (cmd_sec_level (St.start0 none (some "AA") none 0) ["sec-level", "high"] env0).out
      = [⟨"SEC-LEVEL", 0, some 256, "It can only be done when connected for LE connections", []⟩]
    := by
  decide

/-- C4 counterexample: `connect` issued while Connecting is silently
ignored: no connection attempt, but also no error line reported. -/
theorem connect_wrong_state_silent :
    (cmd_connect stConnecting ["connect"] env0).out = [] ∧
    (cmd_connect stConnecting ["connect"] env0).reqs = [] := by
  decide

/-- C7: when the collaborator tokenizer fails (unbalanced quote), the
source ignores the failure result and reads the never-assigned argv local:
undefined behavior (modelled `none`); in particular no parse-error line is
printed and no further line can be handled by this invocation. -/
theorem parse_line_tokenize_failure_ub :
    parse_line (St.start0 none (some "AA") none 0) (some "primary \"x")
      { env0 with shellParse := fun _ => none } = none := by
  rfl

/-- C8 counterexample: `characteristics 10 2` parses start 0x10 and end
0x2, performs no `end >= start` validation, and issues the discovery
request for the inverted range [0x10, 0x2]. -/
theorem characteristics_range_not_validated :
    (cmd_char stC ["characteristics", "10", "2"] env0).reqs = [Req.discoverChar 16 2 none] ∧
    strtohandle "10" = 16 ∧ strtohandle "2" = 2 ∧ (2 : Int) < 16 := by
  decide

/-- C2 (amended): after a successful response page whose last seen handle
`h` is below the requested end handle, the handler issues exactly one new
find-information request for [h+1, end] (handled by the same callback in
the event loop), and closes EACH successful page with its own
CHAR-DESC-END line of code 0; in the scenario (handles 1..5, then
attribute-not-found for [6, 0xffff]) exactly two discovery requests are
issued, the first page being closed by an END line with code 0 and the
not-found response by a second END line carrying the error code 10;
attribute-not-found on the very first request likewise yields an END line
with the error code, not a successful empty listing. -/
theorem char_desc_pagination (st : St) (l : List (Nat × String)) (h : Nat)
    (hh : (l.map Prod.fst).foldl (fun _ x => x) 0xffff = h)
    (h1 : h ≠ 0xffff) (h2 : (h : Int) < st.gEnd) :
    (char_desc_cb st 0 (some l)).reqs = [Req.findInfo (h + 1) (toU16 st.gEnd)] ∧
    (char_desc_cb st 0 (some l)).out =
      (l.map fun e => (⟨"CHAR-DESC", st.conn_handle, none, e.2, [e.1]⟩ : OutLine)) ++
      [⟨"CHAR-DESC-END", st.conn_handle, some 0, "", []⟩] ∧
    effD1.reqs = [Req.findInfo 1 0xffff] ∧
    effD2.reqs = [Req.findInfo 6 0xffff] ∧
    effD3.reqs = [] ∧
    ((effD2.out ++ effD3.out).filter fun o => o.tag == "CHAR-DESC-END").map OutLine.code
      = [some 0, some 10] := by
  refine ⟨?_, ?_, by decide, by decide, by decide, by decide⟩ <;>
    simp [char_desc_cb, hh, h1, h2]

/-- Witness for `char_desc_pagination` at the concrete first page of the
scenario. -/
theorem char_desc_pagination_witness :
    (5 : Nat) ≠ 0xffff ∧ ((5 : Nat) : Int) < effD1.st.gEnd ∧
    (char_desc_cb effD1.st 0 (some [(1, "u1"), (2, "u2"), (3, "u3"), (4, "u4"), (5, "u5")])).reqs
      = [Req.findInfo 6 (toU16 effD1.st.gEnd)] :=
  ⟨by decide, by decide,
   (char_desc_pagination effD1.st [(1, "u1"), (2, "u2"), (3, "u3"), (4, "u4"), (5, "u5")] 5
      (by decide) (by decide) (by decide)).1⟩

/-- C3 (amended): unknown level strings are rejected with the
allowed-values error and leave the configuration unchanged; a valid level
with no PSM configured while not Connected prints the rejection line and
applies nothing to the transport, but the stored configuration is updated
to the new level anyway; a valid level with a PSM configured while not
Disconnected prints the rejection line and then CONTINUES, updating the
configuration and applying the level to the open channel. -/
theorem sec_level_rules (st : St) (s : String) (env : Env) :
    (lowerStr s ≠ "medium" → lowerStr s ≠ "high" → lowerStr s ≠ "low" →
      cmd_sec_level st ["sec-level", s] env =
        { st := st,
          out := [⟨"SEC-LEVEL", st.conn_handle, some 257,
                   "Allowed values: low | medium | high", []⟩] }) ∧
    ((lowerStr s = "medium" ∨ lowerStr s = "high" ∨ lowerStr s = "low") →
      st.opt_psm = 0 → st.conn_state ≠ ConnState.connected →
      cmd_sec_level st ["sec-level", s] env =
        { st := { st with opt_sec_level := s },
          out := [⟨"SEC-LEVEL", 0, some 256,
                   "It can only be done when connected for LE connections", []⟩] }) ∧
    ((lowerStr s = "medium" ∨ lowerStr s = "high" ∨ lowerStr s = "low") →
      st.opt_psm ≠ 0 → st.conn_state ≠ ConnState.disconnected →
      st.iochannel = true → env.btIoSetErr = none →
      cmd_sec_level st ["sec-level", s] env =
        { st := { st with opt_sec_level := s },
          out := [⟨"SEC-LEVEL", st.conn_handle, some 256,
                   "It must be disconnected to this change take effect", []⟩,
                  ⟨"SEC-LEVEL", st.conn_handle, some 0, s, []⟩],
          reqs := [Req.btIoSet (lowerStr s)] }) := by
  refine ⟨fun hm hh hl => ?_, fun hv hp hc => ?_, fun hv hp hc hio herr => ?_⟩
  · simp [cmd_sec_level, arg, hm, hh, hl]
  · rcases hv with h | h | h <;> simp [cmd_sec_level, arg, h, hp, hc]
  · rcases hv with h | h | h <;> simp [cmd_sec_level, arg, h, hp, hc, hio, herr]

/-- Witness for `sec_level_rules`: the two rejection shapes at concrete
states, via the LE-disconnected case and the BR-connected case. -/
theorem sec_level_rules_witness :
    lowerStr "HIGH" = "high" ∧
    cmd_sec_level (St.start0 none (some "AA") none 0) ["sec-level", "HIGH"] env0 =
      { st := { St.start0 none (some "AA") none 0 with opt_sec_level := "HIGH" },
        out := [⟨"SEC-LEVEL", 0, some 256,
                 "It can only be done when connected for LE connections", []⟩] } ∧
    cmd_sec_level stBR ["sec-level", "low"] env0 =
      { st := { stBR with opt_sec_level := "low" },
        out := [⟨"SEC-LEVEL", 0x40, some 256,
                 "It must be disconnected to this change take effect", []⟩,
                ⟨"SEC-LEVEL", 0x40, some 0, "low", []⟩],
        reqs := [Req.btIoSet "low"] } :=
  ⟨by decide,
   (sec_level_rules (St.start0 none (some "AA") none 0) "HIGH" env0).2.1
     (Or.inr (Or.inl (by decide))) (by decide) (by decide),
   (sec_level_rules stBR "low" env0).2.2
     (Or.inr (Or.inr (by decide))) (by decide) (by decide) (by decide) (by decide)⟩

/-- C4 (amended): every Connected-only command (primary, characteristics,
char-desc, char-read-hnd, char-read-uuid, mtu) invoked while Disconnected
or Connecting prints its fixed state-error line, changes nothing, and
issues no collaborator request; `connect` invoked outside Disconnected is
likewise not attempted, but it is silently ignored: no error line is
printed. -/
theorem state_errors_no_request (st : St) (argv : List String) (env : Env)
    (hc : st.conn_state ≠ ConnState.connected) (ha : argv.length ≠ 0) :
    cmd_primary st argv env =
      { st := st, out := [⟨"PRIMARY-ALL", 0, some 256, "Command failed: disconnected", []⟩] } ∧
    cmd_char st argv env =
      { st := st, out := [⟨"CHAR-DESC-END", 0, some 256, "disconnected", []⟩] } ∧
    cmd_char_desc st argv env =
      { st := st, out := [⟨"CHAR-DESC-END", 0, some 256, "Command failed: disconnected", []⟩] } ∧
    cmd_read_hnd st argv env =
      { st := st, out := [⟨"CHAR-READ-HND", 0, some 256, "Command failed: disconnected", []⟩] } ∧
    cmd_read_uuid st argv env =
      { st := st, out := [⟨"CHAR-READ-UUID", 0, some 256, "Command failed: disconnected", []⟩] } ∧
    cmd_mtu st argv env =
      { st := st, out := [⟨"MTU", 0, some 256, "Command failed: not connected.", []⟩] } ∧
    (st.conn_state ≠ ConnState.disconnected → cmd_connect st argv env = { st := st }) := by
  refine ⟨?_, ?_, ?_, ?_, ?_, ?_, fun hd => ?_⟩
  · simp [cmd_primary, hc, ha]
  · simp [cmd_char, hc]
  · simp [cmd_char_desc, hc]
  · simp [cmd_read_hnd, hc]
  · simp [cmd_read_uuid, hc]
  · simp [cmd_mtu, hc]
  · simp [cmd_connect, hd]

/-- Witness for `state_errors_no_request` in the Connecting state. -/
theorem state_errors_no_request_witness :
    stConnecting.conn_state ≠ ConnState.connected ∧
    (cmd_read_hnd stConnecting ["char-read-hnd", "0010"] env0).reqs = [] ∧
    cmd_connect stConnecting ["connect"] env0 = { st := stConnecting } :=
  ⟨by decide,
   by rw [(state_errors_no_request stConnecting ["char-read-hnd", "0010"] env0
            (by decide) (by decide)).2.2.2.1],
   (state_errors_no_request stConnecting ["connect"] env0 (by decide) (by decide)).2.2.2.2.2.2
     (by decide)⟩

/-- C9: with a valid handle and value, the variant is selected solely by
the typed command name: `char-write-req` issues the with-response write
and prints nothing until its callback runs, which reports status 0 exactly
when the response decodes as a write response or an execute-write response
and status 1 when neither decodes (nonzero transport status is echoed);
`char-write-cmd` issues the no-response write and reports status 0
immediately. -/
theorem write_req_vs_cmd (st : St) (hs vs : String) (env : Env) (status : Nat)
    (wOk eOk : Bool) (hc : st.conn_state = ConnState.connected)
    (hh : 0 < strtohandle hs) (hv : env.attrData vs ≠ []) :
    cmd_char_write st ["char-write-req", hs, vs] env =
      { st := st, reqs := [Req.writeCharReq (toU16 (strtohandle hs)) (env.attrData vs)] } ∧
    cmd_char_write st ["char-write-cmd", hs, vs] env =
      { st := st, reqs := [Req.writeCharCmd (toU16 (strtohandle hs)) (env.attrData vs)],
        out := [⟨"CHAR-WRITE-CMD", st.conn_handle, some 0, "", []⟩] } ∧
    (wOk = true ∨ eOk = true →
      char_write_req_cb st 0 wOk eOk =
        { st := st, out := [⟨"CHAR-WRITE-REQ", st.conn_handle, some 0, "", []⟩] }) ∧
    (wOk = false → eOk = false →
      char_write_req_cb st 0 wOk eOk =
        { st := st, out := [⟨"CHAR-WRITE-REQ", st.conn_handle, some 1, "", []⟩] }) ∧
    (status ≠ 0 →
      char_write_req_cb st status wOk eOk =
        { st := st, out := [⟨"CHAR-WRITE-REQ", st.conn_handle, some (status : Int),
                             att_ecode2str status, []⟩] }) := by
  have hh' : ¬ strtohandle hs ≤ 0 := by omega
  refine ⟨?_, ?_, fun hwe => ?_, fun hw he => ?_, fun hst => ?_⟩
  · simp [cmd_char_write, arg, hc, hh', hv]
  · simp [cmd_char_write, arg, hc, hh', hv]
  · rcases hwe with h | h <;> simp [char_write_req_cb, h]
  · simp [char_write_req_cb, hw, he]
  · simp [char_write_req_cb, hst]

/-- Witness for `write_req_vs_cmd` at handle 0010 and a one-byte value. -/
theorem write_req_vs_cmd_witness :
    stC.conn_state = ConnState.connected ∧ 0 < strtohandle "0010" ∧
    env0.attrData "aa" ≠ [] ∧
    cmd_char_write stC ["char-write-req", "0010", "aa"] env0 =
      { st := stC, reqs := [Req.writeCharReq 16 [1]] } ∧
    cmd_char_write stC ["char-write-cmd", "0010", "aa"] env0 =
      { st := stC, reqs := [Req.writeCharCmd 16 [1]],
        out := [⟨"CHAR-WRITE-CMD", 0x40, some 0, "", []⟩] } :=
  ⟨by decide, by decide, by decide,
   (write_req_vs_cmd stC "0010" "aa" env0 1 true true (by decide) (by decide) (by decide)).1,
   (write_req_vs_cmd stC "0010" "aa" env0 1 true true (by decide) (by decide) (by decide)).2.1⟩

/-- C6: the MTU exchange is accepted at most once per connection: while
`opt_mtu` is nonzero any further `mtu <value>` fails with the
once-per-connection error and sends nothing; a value below the protocol
minimum (23) is rejected before any request; a valid value issues the
exchange and leaves `opt_mtu` nonzero, so every later `mtu` command on the
same connection is refused without a request; on a successful exchange
response the negotiated MTU is the minimum of the requested and the peer
value and is applied to the live connection (`g_attrib_set_mtu`). -/
theorem mtu_once_per_connection (st : St) (argv : List String) (env : Env) (s : String)
    (peer : Nat) (setOk : Bool)
    (hc : st.conn_state = ConnState.connected) (hp : st.opt_psm = 0) :
    (2 ≤ argv.length → st.opt_mtu ≠ 0 →
      cmd_mtu st argv env =
        { st := st, out := [⟨"MTU", st.conn_handle, some (ATT_ECODE_UNLIKELY : Int),
            "Command failed: MTU exchange can only occur once per connection.", []⟩] }) ∧
    (st.opt_mtu = 0 → (strtoll0 s).erange = false → toCInt (strtoll0 s).val < 23 →
      (cmd_mtu st ["mtu", s] env).reqs = []) ∧
    (st.opt_mtu = 0 → (strtoll0 s).erange = false → 23 ≤ toCInt (strtoll0 s).val →
      cmd_mtu st ["mtu", s] env =
        { st := { st with opt_mtu := toCInt (strtoll0 s).val },
          reqs := [Req.exchangeMtu (toCInt (strtoll0 s).val)] } ∧
      (∀ argv2 env2, 2 ≤ argv2.length →
        cmd_mtu (cmd_mtu st ["mtu", s] env).st argv2 env2 =
          { st := (cmd_mtu st ["mtu", s] env).st,
            out := [⟨"MTU", st.conn_handle, some (ATT_ECODE_UNLIKELY : Int),
              "Command failed: MTU exchange can only occur once per connection.", []⟩] })) ∧
    (exchange_mtu_cb st 0 (some peer) setOk).reqs =
      [Req.setMtu (toU16 (min (peer : Int) st.opt_mtu))] := by
  have hlen : ∀ argv2 : List String, 2 ≤ argv2.length → ¬ argv2.length < 2 := by
    intro a h; omega
  have h23 : (ATT_DEFAULT_LE_MTU : Int) = 23 := by decide
  refine ⟨fun h2 hm => ?_, fun hm her hlt => ?_, fun hm her hge => ⟨?_, fun argv2 env2 h2 => ?_⟩,
          ?_⟩
  · simp [cmd_mtu, hc, hp, hlen argv h2, hm]
  · simp [cmd_mtu, arg, hc, hp, hm, her, h23, hlt]
  · have hnl : ¬ toCInt (strtoll0 s).val < 23 := by omega
    simp [cmd_mtu, arg, hc, hp, hm, her, h23, hnl]
  · have h1 : cmd_mtu st ["mtu", s] env =
        { st := { st with opt_mtu := toCInt (strtoll0 s).val },
          reqs := [Req.exchangeMtu (toCInt (strtoll0 s).val)] } := by
      have hnl : ¬ toCInt (strtoll0 s).val < 23 := by omega
      simp [cmd_mtu, arg, hc, hp, hm, her, h23, hnl]
    rw [h1]
    have hnz : toCInt (strtoll0 s).val ≠ 0 := by omega
    simp [cmd_mtu, hc, hp, hlen argv2 h2, hnz]
  · cases setOk <;> simp [exchange_mtu_cb]

/-- Witness for `mtu_once_per_connection`: request 50, peer answers 30,
negotiated 30; a second `mtu 100` is refused without a request. -/
theorem mtu_once_per_connection_witness :
    stC.conn_state = ConnState.connected ∧ stC.opt_psm = 0 ∧ stC.opt_mtu = 0 ∧
    (strtoll0 "50").erange = false ∧ 23 ≤ toCInt (strtoll0 "50").val ∧
    cmd_mtu stC ["mtu", "50"] env0 =
      { st := { stC with opt_mtu := 50 }, reqs := [Req.exchangeMtu 50] } ∧
    cmd_mtu (cmd_mtu stC ["mtu", "50"] env0).st ["mtu", "100"] env0 =
      { st := (cmd_mtu stC ["mtu", "50"] env0).st,
        out := [⟨"MTU", 0x40, some 14,
          "Command failed: MTU exchange can only occur once per connection.", []⟩] } ∧
    (exchange_mtu_cb { stC with opt_mtu := 50 } 0 (some 30) true).reqs = [Req.setMtu 30] :=
  ⟨by decide, by decide, by decide, by decide, by decide,
   ((mtu_once_per_connection stC ["mtu", "50"] env0 "50" 30 true (by decide) (by decide)).2.2.1
      (by decide) (by decide) (by decide)).1,
   ((mtu_once_per_connection stC ["mtu", "50"] env0 "50" 30 true (by decide) (by decide)).2.2.1
      (by decide) (by decide) (by decide)).2 ["mtu", "100"] env0 (by decide),
   by rw [(mtu_once_per_connection { stC with opt_mtu := 50 } ["mtu", "50"] env0 "50" 30 true
            (by decide) (by decide)).2.2.2]; decide⟩

/-- C10 (implicit): an `mtu` command whose value fails validation with a
nonzero parsed value stores that rejected value into the process-wide
`opt_mtu` BEFORE validating it and sends nothing, so every subsequent
`mtu <value>` on the same connection is refused with the
once-per-connection error although no exchange request was ever issued;
disconnecting resets `opt_mtu` to 0. -/
theorem mtu_rejected_value_stored (st : St) (env : Env) (s : String)
    (hc : st.conn_state = ConnState.connected) (hp : st.opt_psm = 0)
    (hm : st.opt_mtu = 0)
    (hrej : (strtoll0 s).erange = true ∨ toCInt (strtoll0 s).val < 23)
    (hnz : toCInt (strtoll0 s).val ≠ 0) :
    (cmd_mtu st ["mtu", s] env).reqs = [] ∧
    (cmd_mtu st ["mtu", s] env).st.opt_mtu = toCInt (strtoll0 s).val ∧
    (cmd_mtu st ["mtu", s] env).out =
      [⟨"MTU", st.conn_handle, some (ATT_ECODE_UNLIKELY : Int),
        "Invalid value. Minimum MTU size is 23", []⟩] ∧
    (∀ argv2 env2, 2 ≤ argv2.length →
      cmd_mtu (cmd_mtu st ["mtu", s] env).st argv2 env2 =
        { st := (cmd_mtu st ["mtu", s] env).st,
          out := [⟨"MTU", st.conn_handle, some (ATT_ECODE_UNLIKELY : Int),
            "Command failed: MTU exchange can only occur once per connection.", []⟩] }) ∧
    (disconnect_io (cmd_mtu st ["mtu", s] env).st).st.opt_mtu = 0 := by
  have h1 : cmd_mtu st ["mtu", s] env =
      { st := { st with opt_mtu := toCInt (strtoll0 s).val },
        out := [⟨"MTU", st.conn_handle, some (ATT_ECODE_UNLIKELY : Int),
          "Invalid value. Minimum MTU size is 23", []⟩] } := by
    have h23 : (ATT_DEFAULT_LE_MTU : Int) = 23 := by decide
    rcases hrej with h | h <;> simp [cmd_mtu, arg, hc, hp, hm, h23, h]
  refine ⟨by rw [h1], by rw [h1], by rw [h1], fun argv2 env2 h2 => ?_, ?_⟩
  · have hlen : ¬ argv2.length < 2 := by omega
    rw [h1]; simp [cmd_mtu, hc, hp, hlen, hnz]
  · rw [h1]; simp [disconnect_io, hc, set_state]

/-- Witness for `mtu_rejected_value_stored` at the rejected value 5. -/
theorem mtu_rejected_value_stored_witness :
    stC.conn_state = ConnState.connected ∧ toCInt (strtoll0 "5").val = 5 ∧
    (cmd_mtu stC ["mtu", "5"] env0).reqs = [] ∧
    (cmd_mtu stC ["mtu", "5"] env0).st.opt_mtu = 5 ∧
    cmd_mtu (cmd_mtu stC ["mtu", "5"] env0).st ["mtu", "100"] env0 =
      { st := (cmd_mtu stC ["mtu", "5"] env0).st,
        out := [⟨"MTU", 0x40, some 14,
          "Command failed: MTU exchange can only occur once per connection.", []⟩] } ∧
    (disconnect_io (cmd_mtu stC ["mtu", "5"] env0).st).st.opt_mtu = 0 :=
  ⟨by decide, by decide,
   (mtu_rejected_value_stored stC env0 "5" (by decide) (by decide) (by decide)
      (Or.inr (by decide)) (by decide)).1,
   by rw [(mtu_rejected_value_stored stC env0 "5" (by decide) (by decide) (by decide)
            (Or.inr (by decide)) (by decide)).2.1]; decide,
   (mtu_rejected_value_stored stC env0 "5" (by decide) (by decide) (by decide)
      (Or.inr (by decide)) (by decide)).2.2.2.1 ["mtu", "100"] env0 (by decide),
   (mtu_rejected_value_stored stC env0 "5" (by decide) (by decide) (by decide)
      (Or.inr (by decide)) (by decide)).2.2.2.2⟩

/-- C8 (amended): handle arguments are parsed as hexadecimal and must
round-trip exactly (any trailing non-hex garbage makes `strtohandle`
return -EINVAL and the command dispatches no request); `char-desc` and
`char-read-uuid` validate `end >= start` before issuing, but
`characteristics` checks only that each bound parses and issues its
request even when end < start; `char-read-hnd` with a valid handle and no
offset dispatches the read with offset 0; `char-write-req` likewise
rejects an unparsable handle without a request. -/
theorem handle_validation (st : St) (s t u : String) (env : Env)
    (hc : st.conn_state = ConnState.connected) :
    ((strtoll16 s).rest ≠ [] → strtohandle s = -22) ∧
    (strtohandle s < 0 →
      cmd_read_hnd st ["char-read-hnd", s] env =
        { st := st,
          out := [⟨"CHAR-READ-HND", st.conn_handle, some 1, "Invalid handle: " ++ s, []⟩] }) ∧
    (0 ≤ strtohandle s →
      cmd_read_hnd st ["char-read-hnd", s] env =
        { st := st, reqs := [Req.readChar (toU16 (strtohandle s)) 0] }) ∧
    (0 ≤ strtohandle s → strtohandle t < strtohandle s →
      (cmd_char_desc st ["char-desc", s, t] env).reqs = [] ∧
      (cmd_char_desc st ["char-desc", s, t] env).out =
        [⟨"CHAR-DESC-END", st.conn_handle, some (ATT_ECODE_INVALID_HANDLE : Int),
          "Invalid end handle: " ++ t, []⟩]) ∧
    (env.parseUuid u = true → 0 ≤ strtohandle s → strtohandle t < strtohandle s →
      (cmd_read_uuid st ["char-read-uuid", u, s, t] env).reqs = []) ∧
    (0 ≤ strtohandle s → 0 ≤ strtohandle t →
      (cmd_char st ["characteristics", s, t] env).reqs =
        [Req.discoverChar (toU16 (strtohandle s)) (toU16 (strtohandle t)) none]) ∧
    (strtohandle s ≤ 0 →
      (cmd_char_write st ["char-write-req", s, t] env).reqs = []) := by
  refine ⟨fun hg => ?_, fun hlt => ?_, fun hge => ?_, fun hge hlt => ?_,
          fun hu hge hlt => ?_, fun hge hge2 => ?_, fun hle => ?_⟩
  · simp [strtohandle, hg]
  · simp [cmd_read_hnd, arg, hc, hlt]
  · simp [cmd_read_hnd, arg, hc, not_lt.mpr hge]
  · constructor <;> simp [cmd_char_desc, arg, hc, not_lt.mpr hge, hlt]
  · simp [cmd_read_uuid, arg, hc, hu, not_lt.mpr hge, hlt]
  · simp [cmd_char, arg, hc, not_lt.mpr hge, not_lt.mpr hge2]
  · simp [cmd_char_write, arg, hc, hle]

/-- Witness for `handle_validation`: `zz` fails without a request, `0010`
dispatches with offset 0, and an inverted char-desc range is rejected. -/
theorem handle_validation_witness :
    (strtoll16 "zz").rest ≠ [] ∧ strtohandle "zz" = -22 ∧
    cmd_read_hnd stC ["char-read-hnd", "zz"] env0 =
      { st := stC, out := [⟨"CHAR-READ-HND", 0x40, some 1, "Invalid handle: zz", []⟩] } ∧
    cmd_read_hnd stC ["char-read-hnd", "0010"] env0 =
      { st := stC, reqs := [Req.readChar 16 0] } ∧
    (cmd_char_desc stC ["char-desc", "10", "2"] env0).reqs = [] :=
  ⟨by decide,
   (handle_validation stC "zz" "2" "u" env0 (by decide)).1 (by decide),
   (handle_validation stC "zz" "2" "u" env0 (by decide)).2.1 (by decide),
   (handle_validation stC "0010" "2" "u" env0 (by decide)).2.2.1 (by decide),
   ((handle_validation stC "10" "2" "u" env0 (by decide)).2.2.2.1 (by decide) (by decide)).1⟩

/-- Helper: `set_state` to a non-Connected state zeroes the handle. -/
theorem set_state_not_conn (st : St) (s : ConnState) (h : s ≠ ConnState.connected) :
    (set_state st s).conn_state = s ∧ (set_state st s).conn_handle = 0 := by
  cases s <;> simp_all [set_state]

/-- Helper: `set_state` to Connected only changes the state field. -/
theorem set_state_conn (st : St) :
    set_state st ConnState.connected = { st with conn_state := ConnState.connected } := by
  simp [set_state]

/-- Helper: `events_handler` never writes the globals. -/
theorem events_handler_st (st : St) (op h : Nat) (p : List Nat) :
    (events_handler st op h p).st = st := by
  unfold events_handler; (repeat' split) <;> rfl

/-- Helper: `primary_all_cb` never writes the globals. -/
theorem primary_all_cb_st (st : St) (v : List (Nat × Nat × String)) (s : Nat) :
    (primary_all_cb st v s).st = st := by
  unfold primary_all_cb; (repeat' split) <;> rfl

/-- Helper: `primary_by_uuid_cb` never writes the globals. -/
theorem primary_by_uuid_cb_st (st : St) (v : List (Nat × Nat)) (s : Nat) :
    (primary_by_uuid_cb st v s).st = st := by
  unfold primary_by_uuid_cb; (repeat' split) <;> rfl

/-- Helper: `char_cb` never writes the globals. -/
theorem char_cb_st (st : St) (v : List (Nat × Nat × Nat × String)) (s : Nat) :
    (char_cb st v s).st = st := by
  unfold char_cb; (repeat' split) <;> rfl

/-- Helper: `char_desc_cb` never writes the globals. -/
theorem char_desc_cb_st (st : St) (s : Nat) (r : Option (List (Nat × String))) :
    (char_desc_cb st s r).st = st := by
  unfold char_desc_cb; (try dsimp only); (repeat' split) <;> rfl

/-- Helper: `char_read_cb` never writes the globals. -/
theorem char_read_cb_st (st : St) (s : Nat) (r : Option (List Nat)) :
    (char_read_cb st s r).st = st := by
  unfold char_read_cb; (repeat' split) <;> rfl

/-- Helper: `char_read_by_uuid_cb` never writes the globals. -/
theorem char_read_by_uuid_cb_st (st : St) (cd : CharData) (s : Nat)
    (r : Option (List (Nat × List Nat))) :
    (char_read_by_uuid_cb st cd s r).eff.st = st := by
  unfold char_read_by_uuid_cb; (try dsimp only); (repeat' split) <;> rfl

/-- Helper: `char_write_req_cb` never writes the globals. -/
theorem char_write_req_cb_st (st : St) (s : Nat) (w e : Bool) :
    (char_write_req_cb st s w e).st = st := by
  unfold char_write_req_cb; (repeat' split) <;> rfl

/-- Helper: `exchange_mtu_cb` never writes the globals. -/
theorem exchange_mtu_cb_st (st : St) (s : Nat) (r : Option Nat) (ok : Bool) :
    (exchange_mtu_cb st s r ok).st = st := by
  unfold exchange_mtu_cb; (try dsimp only); (repeat' split) <;> rfl

/-- Helper: `cmd_help` never writes the globals. -/
theorem cmd_help_st (st : St) (argv : List String) (env : Env) :
    (cmd_help st argv env).st = st := rfl

/-- Helper: `cmd_exit` never writes the globals. -/
theorem cmd_exit_st (st : St) (argv : List String) (env : Env) :
    (cmd_exit st argv env).st = st := rfl

/-- Helper: `cmd_primary` never writes the globals. -/
theorem cmd_primary_st (st : St) (argv : List String) (env : Env) :
    (cmd_primary st argv env).st = st := by
  unfold cmd_primary; (repeat' split) <;> rfl

/-- Helper: `cmd_char` never writes the globals. -/
theorem cmd_char_st (st : St) (argv : List String) (env : Env) :
    (cmd_char st argv env).st = st := by
  unfold cmd_char; (try dsimp only); (repeat' split) <;> rfl

/-- Helper: `cmd_read_hnd` never writes the globals. -/
theorem cmd_read_hnd_st (st : St) (argv : List String) (env : Env) :
    (cmd_read_hnd st argv env).st = st := by
  unfold cmd_read_hnd; (try dsimp only); (repeat' split) <;> rfl

/-- Helper: `cmd_read_uuid` never writes the globals. -/
theorem cmd_read_uuid_st (st : St) (argv : List String) (env : Env) :
    (cmd_read_uuid st argv env).st = st := by
  unfold cmd_read_uuid; (try dsimp only); (repeat' split) <;> rfl

/-- Helper: `cmd_char_write` never writes the globals. -/
theorem cmd_char_write_st (st : St) (argv : List String) (env : Env) :
    (cmd_char_write st argv env).st = st := by
  unfold cmd_char_write; (try dsimp only); (repeat' split) <;> rfl

/-- Helper: `cmd_char_desc` preserves the connection fields. -/
theorem cmd_char_desc_conn (st : St) (argv : List String) (env : Env) :
    (cmd_char_desc st argv env).st.conn_state = st.conn_state ∧
    (cmd_char_desc st argv env).st.conn_handle = st.conn_handle := by
  unfold cmd_char_desc; (try dsimp only); (repeat' split) <;> exact ⟨rfl, rfl⟩

/-- Helper: `cmd_sec_level` preserves the connection fields. -/
theorem cmd_sec_level_conn (st : St) (argv : List String) (env : Env) :
    (cmd_sec_level st argv env).st.conn_state = st.conn_state ∧
    (cmd_sec_level st argv env).st.conn_handle = st.conn_handle := by
  unfold cmd_sec_level; (try dsimp only); (repeat' split) <;> exact ⟨rfl, rfl⟩

/-- Helper: `cmd_mtu` preserves the connection fields. -/
theorem cmd_mtu_conn (st : St) (argv : List String) (env : Env) :
    (cmd_mtu st argv env).st.conn_state = st.conn_state ∧
    (cmd_mtu st argv env).st.conn_handle = st.conn_handle := by
  unfold cmd_mtu; (try dsimp only); (repeat' split) <;> exact ⟨rfl, rfl⟩

/-- Helper: `cmd_psm` preserves the connection fields. -/
theorem cmd_psm_conn (st : St) (argv : List String) (env : Env) :
    (cmd_psm st argv env).st.conn_state = st.conn_state ∧
    (cmd_psm st argv env).st.conn_handle = st.conn_handle := by
  unfold cmd_psm; (try dsimp only); (repeat' split) <;> exact ⟨rfl, rfl⟩

/-- Helper: `cmd_connect` preserves the connection invariant. -/
theorem cmd_connect_connInv (st : St) (argv : List String) (env : Env)
    (h : ConnInv st) : ConnInv (cmd_connect st argv env).st := by
  unfold cmd_connect; repeat' split <;> simp_all [ConnInv, set_state]

/-- Helper: `disconnect_io` preserves the connection invariant. -/
theorem disconnect_io_connInv (st : St) (h : ConnInv st) : ConnInv (disconnect_io st).st := by
  unfold disconnect_io; split
  · exact h
  · simp [ConnInv, set_state]

/-- Helper: `channel_watcher` preserves the connection invariant. -/
theorem channel_watcher_connInv (st : St) (h : ConnInv st) :
    ConnInv (channel_watcher st).st := by
  have : (channel_watcher st).st = (disconnect_io st).st := rfl
  rw [this]; exact disconnect_io_connInv st h

/-- Helper: `connect_cb`, fired while Connecting, establishes the
connection invariant when the transport hands out a nonzero handle. -/
theorem connect_cb_connInv (st : St) (r : ConnectRes) (hcs : st.conn_state = ConnState.connecting)
    (hwf : EvWF (Ev.connectDone r)) : ConnInv (connect_cb st r).st := by
  cases r with
  | fail c m => simp [connect_cb, ConnInv, set_state]
  | okGetErr c m => simp [connect_cb, ConnInv, hcs]
  | okHandle h => simpa [connect_cb, ConnInv, set_state] using hwf

/-- Helper: every table handler preserves the connection invariant. -/
theorem runCmd_connInv (id : CmdId) (st : St) (argv : List String) (env : Env)
    (h : ConnInv st) : ConnInv (runCmd id st argv env).st := by
  cases id with
  | help => rw [runCmd, cmd_help_st]; exact h
  | quit => rw [runCmd, cmd_exit_st]; exact h
  | connect => exact cmd_connect_connInv st argv env h
  | disconnect => exact disconnect_io_connInv st h
  | primary => rw [runCmd, cmd_primary_st]; exact h
  | characteristics => rw [runCmd, cmd_char_st]; exact h
  | charDesc =>
    have l := cmd_char_desc_conn st argv env
    unfold ConnInv at h ⊢; rw [runCmd, l.1, l.2]; exact h
  | readHnd => rw [runCmd, cmd_read_hnd_st]; exact h
  | readUuid => rw [runCmd, cmd_read_uuid_st]; exact h
  | charWrite => rw [runCmd, cmd_char_write_st]; exact h
  | secLevel =>
    have l := cmd_sec_level_conn st argv env
    unfold ConnInv at h ⊢; rw [runCmd, l.1, l.2]; exact h
  | mtu =>
    have l := cmd_mtu_conn st argv env
    unfold ConnInv at h ⊢; rw [runCmd, l.1, l.2]; exact h
  | psm =>
    have l := cmd_psm_conn st argv env
    unfold ConnInv at h ⊢; rw [runCmd, l.1, l.2]; exact h

/-- Helper: dispatching one tokenized line preserves the connection
invariant. -/
theorem dispatch_connInv (st : St) (argv : List String) (env : Env)
    (h : ConnInv st) : ConnInv (dispatch st argv env).st := by
  unfold dispatch
  cases lookupCmd (arg argv 0) with
  | some id => exact runCmd_connInv id st argv env h
  | none => exact h

/-- Helper: `parse_line` preserves the connection invariant on every
defined (non-UB) outcome. -/
theorem parse_line_connInv (st : St) (l : Option String) (env : Env) (e : Eff)
    (hs : parse_line st l env = some e) (h : ConnInv st) : ConnInv e.st := by
  cases l with
  | none =>
    simp only [parse_line] at hs
    obtain rfl := Option.some.inj hs
    exact h
  | some s =>
    simp only [parse_line] at hs
    split at hs
    · obtain rfl := Option.some.inj hs
      exact h
    · cases hp : env.shellParse (g_strstrip s) with
      | none => rw [hp] at hs; exact Option.noConfusion hs
      | some argv =>
        rw [hp] at hs
        obtain rfl := Option.some.inj hs
        exact dispatch_connInv st argv env h

/-- Helper: every defined event-loop step preserves the connection
invariant. -/
theorem stepEv_connInv (st : St) (ev : Ev) (e : Eff) (hs : stepEv st ev = some e)
    (hwf : EvWF ev) (h : ConnInv st) : ConnInv e.st := by
  cases ev with
  | line l env => exact parse_line_connInv st l env e hs h
  | connectDone r =>
    simp only [stepEv] at hs
    by_cases hcond : st.conn_state = ConnState.connecting
    · rw [if_pos hcond] at hs
      obtain rfl := Option.some.inj hs
      exact connect_cb_connInv st r hcond hwf
    · rw [if_neg hcond] at hs
      exact Option.noConfusion hs
  | hup =>
    simp only [stepEv] at hs
    obtain rfl := Option.some.inj hs
    exact channel_watcher_connInv st h
  | notifyInd op hd p =>
    simp only [stepEv] at hs
    obtain rfl := Option.some.inj hs
    unfold ConnInv at h ⊢; rw [events_handler_st]; exact h
  | findInfoResp s r =>
    simp only [stepEv] at hs
    obtain rfl := Option.some.inj hs
    unfold ConnInv at h ⊢; rw [char_desc_cb_st]; exact h
  | readResp s r =>
    simp only [stepEv] at hs
    obtain rfl := Option.some.inj hs
    unfold ConnInv at h ⊢; rw [char_read_cb_st]; exact h
  | readByUuidResp cd s r =>
    simp only [stepEv] at hs
    obtain rfl := Option.some.inj hs
    unfold ConnInv at h ⊢; rw [char_read_by_uuid_cb_st]; exact h
  | writeResp s w e2 =>
    simp only [stepEv] at hs
    obtain rfl := Option.some.inj hs
    unfold ConnInv at h ⊢; rw [char_write_req_cb_st]; exact h
  | mtuResp s r ok =>
    simp only [stepEv] at hs
    obtain rfl := Option.some.inj hs
    unfold ConnInv at h ⊢; rw [exchange_mtu_cb_st]; exact h
  | primaryAllResp v s =>
    simp only [stepEv] at hs
    obtain rfl := Option.some.inj hs
    unfold ConnInv at h ⊢; rw [primary_all_cb_st]; exact h
  | primaryUuidResp v s =>
    simp only [stepEv] at hs
    obtain rfl := Option.some.inj hs
    unfold ConnInv at h ⊢; rw [primary_by_uuid_cb_st]; exact h
  | charResp v s =>
    simp only [stepEv] at hs
    obtain rfl := Option.some.inj hs
    unfold ConnInv at h ⊢; rw [char_cb_st]; exact h

/-- C5: in every reachable state the connection handle is nonzero exactly
when the state is Connected (so every transition out of Connected resets
the handle to 0), and a connect attempt failing at the transport level
leaves the state Disconnected with handle 0. -/
theorem conn_handle_iff_connected :
    (∀ st, Reach st → (st.conn_handle ≠ 0 ↔ st.conn_state = ConnState.connected)) ∧
    (∀ st c m, (connect_cb st (ConnectRes.fail c m)).st.conn_state = ConnState.disconnected ∧
               (connect_cb st (ConnectRes.fail c m)).st.conn_handle = 0) := by
  constructor
  · intro st h
    have : ConnInv st := by
      induction h with
      | start0 src dst t psm => simp [ConnInv, St.start0]
      | next st ev e hr hwf hs ih => exact stepEv_connInv st ev e hs hwf ih
    exact this
  · intro st c m
    constructor <;> simp [connect_cb, set_state]

/-- Witness for `conn_handle_iff_connected` at the connected state reached
by dispatching "connect" and completing with transport handle 0x40. -/
theorem conn_handle_iff_connected_witness :
    (e2w.st.conn_handle ≠ 0 ↔ e2w.st.conn_state = ConnState.connected) ∧
    (connect_cb e2w.st (ConnectRes.fail 1 "err")).st.conn_state = ConnState.disconnected ∧
    (connect_cb e2w.st (ConnectRes.fail 1 "err")).st.conn_handle = 0 :=
  ⟨conn_handle_iff_connected.1 e2w.st
     (Reach.next e1w.st (Ev.connectDone (ConnectRes.okHandle 0x40)) e2w
        (Reach.next st0w (Ev.line (some "connect") env0) e1w
           (Reach.start0 none (some "AA") none 0) trivial (by decide))
        (by unfold EvWF; decide) (by decide)),
   (conn_handle_iff_connected.2 e2w.st 1 "err").1,
   (conn_handle_iff_connected.2 e2w.st 1 "err").2⟩
